import Mathlib

/-
Verification of the alexa-mcp-server protocol client against its
natural-language specification.  The definitions below are shallow
embeddings of the TypeScript source: strings are lists of characters,
the HTTP layer is abstracted into explicit outcome values, and every
function mirrors the control flow of the corresponding source function.
-/

namespace AlexaMCP

/-- Strings are modelled as lists of characters. -/
abbrev Str := List Char

/-- The double-quote character (code 34). -/
def quoteChar : Char := Char.ofNat 34

/-- The single-quote character (code 39). -/
def apostropheChar : Char := Char.ofNat 39

/-- The backslash character (code 92). -/
def backslashChar : Char := Char.ofNat 92

/-
ErrorSanitizer: embedding of sanitizeError from the security utilities
module.  The source applies four global regex replacements in order:
ubid-main[=:]\s*[^\s;,"]+ (case-insensitive, plus apostrophe in the
excluded class), the same for at-main and Cookie, and finally a pass
over runs of [A-Za-z0-9_-] of length at least 20 with a keep-callback.
-/

/-- Character class [A-Za-z0-9_-] used by the long-token regex. -/
def isWordChar (c : Char) : Bool := c.isAlphanum || c == '-' || c == '_'

/-- JavaScript regex whitespace class (the members relevant to this code). -/
def isJsSpace (c : Char) : Bool :=
  c == ' ' || c == '\t' || c == '\n' || c == '\r' || c == '\x0b' || c == '\x0c'

/-- Character class [^\s;,"] extended with the apostrophe, the token class of
the credential-field regexes. -/
def isCredTokenChar (c : Char) : Bool :=
  !(isJsSpace c) && c != ';' && c != ',' && c != quoteChar && c != apostropheChar

/-- Case-insensitive literal match: if the pattern is a prefix of the string
up to ASCII case, return the remainder of the string. -/
def matchCI : Str → Str → Option Str
  | [], s => some s
  | _ :: _, [] => none
  | p :: ps, c :: cs => if p.toLower == c.toLower then matchCI ps cs else none

/-- Attempts the regex name[=:]\s*[^\s;,"']+ at the start of the string,
returning the remainder after the match when it succeeds. -/
def tryFieldMatch (name : Str) (s : Str) : Option Str :=
  match matchCI name s with
  | none => none
  | some r1 =>
    match r1 with
    | [] => none
    | sep :: r2 =>
      if sep == '=' || sep == ':' then
        let r3 := r2.dropWhile isJsSpace
        match r3.takeWhile isCredTokenChar with
        | [] => none
        | _ :: _ => some (r3.dropWhile isCredTokenChar)
      else none

theorem matchCI_some_suffix (p : Str) :
    ∀ (s r : Str), matchCI p s = some r → r.length ≤ s.length ∧ r <:+ s := by
  induction p with
  | nil =>
    intro s r h
    simp [matchCI] at h
    subst h
    exact ⟨le_refl _, List.suffix_refl _⟩
  | cons p ps ih =>
    intro s r h
    cases s with
    | nil => simp [matchCI] at h
    | cons c cs =>
      simp only [matchCI] at h
      by_cases hc : p.toLower == c.toLower
      · rw [if_pos hc] at h
        obtain ⟨h1, h2⟩ := ih cs r h
        exact ⟨Nat.le_succ_of_le h1, h2.trans (List.suffix_cons c cs)⟩
      · rw [if_neg hc] at h
        exact absurd h (by simp)

theorem tryFieldMatch_some_length (name s r : Str)
    (h : tryFieldMatch name s = some r) : r.length < s.length := by
  unfold tryFieldMatch at h
  cases hm : matchCI name s with
  | none => rw [hm] at h; exact absurd h (by simp)
  | some r1 =>
    rw [hm] at h
    cases r1 with
    | nil => exact absurd h (by simp)
    | cons sep r2 =>
      simp only at h
      by_cases hsep : (sep == '=' || sep == ':') = true
      · rw [if_pos hsep] at h
        cases ht : (r2.dropWhile isJsSpace).takeWhile isCredTokenChar with
        | nil => rw [ht] at h; exact absurd h (by simp)
        | cons t ts =>
          rw [ht] at h
          simp only [Option.some.injEq] at h
          subst h
          have hlt : ((r2.dropWhile isJsSpace).dropWhile isCredTokenChar).length <
              (sep :: r2).length := by
            have h2 : (r2.dropWhile isJsSpace).length ≤ r2.length :=
              (List.dropWhile_sublist (p := isJsSpace) (l := r2)).length_le
            have h3 : ((r2.dropWhile isJsSpace).dropWhile isCredTokenChar).length ≤
                (r2.dropWhile isJsSpace).length :=
              (List.dropWhile_sublist (p := isCredTokenChar)
                (l := r2.dropWhile isJsSpace)).length_le
            calc ((r2.dropWhile isJsSpace).dropWhile isCredTokenChar).length
                ≤ r2.length := le_trans h3 h2
              _ < (sep :: r2).length := by simp
          exact lt_of_lt_of_le hlt (matchCI_some_suffix name s (sep :: r2) hm).1
      · rw [if_neg hsep] at h
        exact absurd h (by simp)

/-- One global replacement pass: scan left to right, replacing each match of
name[=:]\s*[^\s;,"']+ (case-insensitive) with name=***, exactly as the
source's String.replace with a global regex does. -/
def replField (name : Str) : Str → Str
  | [] => []
  | c :: cs =>
    match h : tryFieldMatch name (c :: cs) with
    | some rest => name ++ ('=' :: '*' :: '*' :: '*' :: []) ++ replField name rest
    | none => c :: replField name cs
termination_by s => s.length
decreasing_by
  · exact tryFieldMatch_some_length _ _ _ h
  · simp

/-- The keep-callback of the long-token pass: a matched run is preserved when
it starts with http, contains a dot, is purely numeric, or is shorter than
30 characters; otherwise it is replaced by three asterisks. -/
def keepToken (t : Str) : Bool :=
  "http".toList.isPrefixOf t || t.contains '.' || t.all (·.isDigit) || t.length < 30

/-- The long-token pass: every maximal run of [A-Za-z0-9_-] of length at
least 20 is passed to the keep-callback and replaced by *** when the
callback rejects it; everything else is copied through. -/
def sanitizeTokens : Str → Str
  | [] => []
  | c :: cs =>
    if h : isWordChar c then
      let run := (c :: cs).takeWhile isWordChar
      let rest := (c :: cs).dropWhile isWordChar
      (if 20 ≤ run.length then (if keepToken run then run else "***".toList) else run)
        ++ sanitizeTokens rest
    else c :: sanitizeTokens cs
termination_by s => s.length
decreasing_by
  · rw [List.dropWhile_cons, if_pos h]
    exact Nat.lt_succ_of_le (List.dropWhile_sublist (p := isWordChar)).length_le
  · simp

/-- Embedding of sanitizeError: empty input becomes the fixed message,
otherwise the three credential-field passes run in source order followed
by the long-token pass. -/
def sanitizeError (errorText : Str) : Str :=
  if errorText.isEmpty then "Unknown error".toList
  else
    sanitizeTokens
      (replField "Cookie".toList
        (replField "at-main".toList
          (replField "ubid-main".toList errorText)))

theorem tryFieldMatch_word (name s : Str) (hw : ∀ c ∈ s, isWordChar c = true) :
    tryFieldMatch name s = none := by
  unfold tryFieldMatch
  cases hm : matchCI name s with
  | none => rfl
  | some r1 =>
    cases r1 with
    | nil => rfl
    | cons sep r2 =>
      have hmem : sep ∈ s :=
        (matchCI_some_suffix name s (sep :: r2) hm).2.subset (by simp)
      have hword : isWordChar sep = true := hw sep hmem
      have hne : (sep == '=' || sep == ':') = false := by
        cases hq : sep == '=' with
        | true =>
          have : sep = '=' := by simpa using hq
          subst this
          exact absurd hword (by decide)
        | false =>
          cases hq2 : sep == ':' with
          | true =>
            have : sep = ':' := by simpa using hq2
            subst this
            exact absurd hword (by decide)
          | false => simp [hq, hq2]
      simp only [hne]
      rfl

theorem replField_word (name : Str) :
    ∀ s : Str, (∀ c ∈ s, isWordChar c = true) → replField name s = s := by
  intro s
  induction s with
  | nil => intro _; simp [replField]
  | cons c cs ih =>
    intro hw
    rw [replField]
    split
    · rename_i rest hsome
      rw [tryFieldMatch_word name _ hw] at hsome
      exact absurd hsome (by simp)
    · rw [ih (fun x hx => hw x (List.mem_cons_of_mem c hx))]

theorem sanitizeTokens_word (s : Str) (hw : ∀ c ∈ s, isWordChar c = true)
    (hne : s ≠ []) :
    sanitizeTokens s =
      if 20 ≤ s.length then (if keepToken s then s else "***".toList) else s := by
  cases s with
  | nil => exact absurd rfl hne
  | cons c cs =>
    rw [sanitizeTokens]
    have hc : isWordChar c = true := hw c (by simp)
    rw [dif_pos hc]
    have htake : (c :: cs).takeWhile isWordChar = c :: cs :=
      List.takeWhile_eq_self_iff.mpr hw
    have hdrop : (c :: cs).dropWhile isWordChar = [] :=
      List.dropWhile_eq_nil_iff.mpr hw
    simp only [htake, hdrop]
    rw [sanitizeTokens]
    simp

theorem sanitizeError_word (s : Str) (hw : ∀ c ∈ s, isWordChar c = true)
    (hne : s ≠ []) :
    sanitizeError s =
      if 20 ≤ s.length then (if keepToken s then s else "***".toList) else s := by
  unfold sanitizeError
  rw [if_neg (by simp [List.isEmpty_iff, hne])]
  rw [replField_word _ _ hw, replField_word _ _ hw, replField_word _ _ hw]
  exact sanitizeTokens_word s hw hne

theorem contains_dot_eq_false (s : Str) (hw : ∀ c ∈ s, isWordChar c = true) :
    s.contains '.' = false := by
  by_contra hc
  have hmem : '.' ∈ s := by simpa [List.contains] using hc
  exact absurd (hw '.' hmem) (by decide)

/-- Claim C1 (amended): for a credential-shaped input consisting solely of
characters from [A-Za-z0-9_-], sanitizeError redacts it to *** exactly when
it has 30 or more characters, does not start with http and is not purely
numeric; any such token of fewer than 30 characters is passed through
unchanged, so the sanitizer never emits a 30+-character opaque credential
but does preserve 20-29-character ones. -/
theorem sanitizeError_spec (s : Str) (hw : ∀ c ∈ s, isWordChar c = true)
    (hne : s ≠ []) :
    (30 ≤ s.length → "http".toList.isPrefixOf s = false →
        s.all (·.isDigit) = false → sanitizeError s = "***".toList)
    ∧ (s.length < 30 → sanitizeError s = s) := by
  constructor
  · intro h30 hhttp hdig
    rw [sanitizeError_word s hw hne, if_pos (by omega)]
    rw [if_neg ?_]
    unfold keepToken
    rw [hhttp, hdig, contains_dot_eq_false s hw]
    simp
    omega
  · intro hlt
    rw [sanitizeError_word s hw hne]
    by_cases h20 : 20 ≤ s.length
    · rw [if_pos h20, if_pos]
      unfold keepToken
      simp
      omega
    · rw [if_neg h20]

/-- The 22-character opaque value used to refute the claim as stated. -/
def leakedCredential : Str := "kQwErTyUiOpAsDfGhJkLzX".toList

/-- Claim C1 counterexample: a configured credential value that is a
22-character alphanumeric token -- 20 or more characters, not a URL, not
dotted, not purely numeric -- passes through sanitizeError completely
unchanged, so the output does contain a substring equal to the credential,
contradicting the claim. -/
theorem sanitizeError_counterexample :
    20 ≤ leakedCredential.length
    ∧ "http".toList.isPrefixOf leakedCredential = false
    ∧ leakedCredential.contains '.' = false
    ∧ leakedCredential.all (·.isDigit) = false
    ∧ sanitizeError leakedCredential = leakedCredential := by
  refine ⟨by decide, by decide, by decide, by decide, ?_⟩
  exact (sanitizeError_spec leakedCredential (by decide) (by decide)).2 (by decide)

/-- A 35-character opaque token used to witness the amended claim. -/
def longCredential : Str := "kQwErTyUiOpAsDfGhJkLzXcVbNm0123-_ab".toList

/-- Witness for the amended claim C1 at concrete inputs: the 35-character
opaque token is redacted to *** while the 22-character one is preserved. -/
theorem sanitizeError_spec_witness :
    sanitizeError longCredential = "***".toList
    ∧ sanitizeError leakedCredential = leakedCredential := by
  constructor
  · exact (sanitizeError_spec longCredential (by decide) (by decide)).1
      (by decide) (by decide) (by decide)
  · exact (sanitizeError_spec leakedCredential (by decide) (by decide)).2 (by decide)

/-
AntiForgeryTokenResolver: embedding of getCsrfToken from utils/alexa.ts.
Each upstream GET is abstracted as an outcome: either the fetch threw
(err) or it returned a status code together with an optional set-cookie
response header.  The resolver consults the handlebars outcome first and
the devices-v2 outcome second; the returned pair carries the token and
the number of sources contacted.
-/

/-- Outcome of one of the two token-source GET requests. -/
inductive FetchOutcome where
  | err : FetchOutcome
  | resp (status : Nat) (setCookie : Option Str) : FetchOutcome
  deriving DecidableEq

/-- The ok flag of a fetch Response: status in the range 200-299. -/
def respOk (status : Nat) : Bool := 200 ≤ status && status ≤ 299

/-- The regex csrf=([^;]+) applied at the start of the string: on success
the capture group, the maximal nonempty run of non-semicolon characters
after the literal csrf=. -/
def csrfMatchAt (s : Str) : Option Str :=
  if "csrf=".toList.isPrefixOf s then
    match (s.drop 5).takeWhile (· != ';') with
    | [] => none
    | t :: ts => some (t :: ts)
  else none

/-- First match of the regex csrf=([^;]+) anywhere in the string. -/
def csrfMatch : Str → Option Str
  | [] => none
  | c :: cs =>
    match csrfMatchAt (c :: cs) with
    | some v => some v
    | none => csrfMatch cs

/-- One arm of the resolver: the token is extracted when the fetch did not
throw, the response is ok, a set-cookie header is present, the csrf regex
matches and the captured value is not the placeholder 1. -/
def extractCsrfToken (o : FetchOutcome) : Option Str :=
  match o with
  | .err => none
  | .resp status sc =>
    if respOk status then
      match sc with
      | none => none
      | some header =>
        match csrfMatch header with
        | some v => if v ≠ "1".toList then some v else none
        | none => none
    else none

/-- Embedding of getCsrfToken: try the handlebars outcome, then the
devices-v2 outcome, then fall back to the sentinel 1.  The second
component counts how many sources were contacted. -/
def getCsrfToken (handlebars devicesV2 : FetchOutcome) : Str × Nat :=
  match extractCsrfToken handlebars with
  | some t => (t, 1)
  | none =>
    match extractCsrfToken devicesV2 with
    | some t => (t, 2)
    | none => ("1".toList, 2)

/-- Claim C2: the resolver consults handlebars first and devices-v2 second;
a non-placeholder token from the first source is returned with the second
source never contacted; a thrown fetch, a non-ok status, a missing
set-cookie header, or the placeholder value 1 all fall through to the next
source; with both sources exhausted the sentinel 1 is returned, and in
particular two HTTP 500 responses yield (1, both sources contacted)
without any exception, the resolver being a total function. -/
theorem getCsrfToken_spec (r1 r2 : FetchOutcome) :
    (∀ t, extractCsrfToken r1 = some t →
        getCsrfToken r1 r2 = (t, 1) ∧ t ≠ "1".toList)
    ∧ extractCsrfToken .err = none
    ∧ (∀ st sc, respOk st = false → extractCsrfToken (.resp st sc) = none)
    ∧ (∀ st, extractCsrfToken (.resp st none) = none)
    ∧ (∀ st h, csrfMatch h = some "1".toList →
        extractCsrfToken (.resp st (some h)) = none)
    ∧ (extractCsrfToken r1 = none → extractCsrfToken r2 = none →
        getCsrfToken r1 r2 = ("1".toList, 2))
    ∧ getCsrfToken (.resp 500 (some "csrf=abc".toList))
        (.resp 500 (some "csrf=abc".toList)) = ("1".toList, 2) := by
  refine ⟨?_, rfl, ?_, ?_, ?_, ?_, by decide⟩
  · intro t ht
    constructor
    · unfold getCsrfToken
      rw [ht]
    · cases r1 with
      | err => exact absurd ht (by simp [extractCsrfToken])
      | resp status sc =>
        simp only [extractCsrfToken] at ht
        by_cases hok : respOk status = true
        · rw [if_pos hok] at ht
          cases sc with
          | none => exact absurd ht (by simp)
          | some header =>
            simp only at ht
            cases hm : csrfMatch header with
            | none => rw [hm] at ht; exact absurd ht (by simp)
            | some v =>
              rw [hm] at ht
              simp only at ht
              by_cases hv : v ≠ "1".toList
              · rw [if_pos hv] at ht
                obtain rfl : v = t := by simpa using ht
                exact hv
              · rw [if_neg hv] at ht
                exact absurd ht (by simp)
        · rw [if_neg hok] at ht
          exact absurd ht (by simp)
  · intro st sc hbad
    simp only [extractCsrfToken]
    rw [if_neg (by simp [hbad])]
  · intro st
    simp only [extractCsrfToken]
    by_cases hok : respOk st = true
    · rw [if_pos hok]
    · rw [if_neg hok]
  · intro st h hm
    simp only [extractCsrfToken]
    by_cases hok : respOk st = true
    · rw [if_pos hok]
      simp only [hm]
      rw [if_neg (by simp)]
    · rw [if_neg hok]
  · intro h1 h2
    unfold getCsrfToken
    rw [h1, h2]

/-- Witness for claim C2 at concrete outcomes: a handlebars response
carrying csrf=tok123 in its set-cookie header yields tok123 with only one
source contacted, and two bare HTTP 500 responses yield the sentinel. -/
theorem getCsrfToken_spec_witness :
    getCsrfToken (.resp 200 (some "sess=9; csrf=tok123; path=x".toList))
        (.resp 500 none) = ("tok123".toList, 1)
    ∧ getCsrfToken (.resp 500 none) (.resp 500 none) = ("1".toList, 2) := by
  constructor
  · exact ((getCsrfToken_spec (.resp 200 (some "sess=9; csrf=tok123; path=x".toList))
      (.resp 500 none)).1 "tok123".toList (by decide)).1
  · exact (getCsrfToken_spec (.resp 500 none) (.resp 500 none)).2.2.2.2.2.1
      (by decide) (by decide)

/-
ResourceDirectory voice-device resolution: embedding of the Echo-device
selection performed by the announce and music handlers.  A smart-home
endpoint is modelled with the same optional-chaining structure as the
upstream GraphQL payload: displayCategories?.primary?.value and
legacyIdentifiers?.dmsIdentifier?.{deviceSerialNumber,deviceType}?.value?.text.
-/

/-- The innermost value-object of a DMS identifier field: \x7btext\x7d. -/
structure DmsValueText where
  text : Option Str
  deriving DecidableEq

/-- A DMS identifier field: \x7bvalue: \x7btext\x7d\x7d. -/
structure DmsField where
  value : Option DmsValueText
  deriving DecidableEq

/-- The dmsIdentifier object holding the legacy serial/type pair. -/
structure DmsIdentifier where
  deviceSerialNumber : Option DmsField
  deviceType : Option DmsField
  deriving DecidableEq

/-- The legacyIdentifiers object. -/
structure LegacyIdentifiers where
  dmsIdentifier : Option DmsIdentifier
  deriving DecidableEq

/-- The primary display category object: \x7bvalue\x7d. -/
structure PrimaryCategory where
  value : Option Str
  deriving DecidableEq

/-- The displayCategories object: \x7bprimary\x7d. -/
structure DisplayCategories where
  primary : Option PrimaryCategory
  deriving DecidableEq

/-- A smart-home endpoint as consumed by the handlers; every field is
optional, matching the optional chaining in the source. -/
structure SmartHomeEndpoint where
  displayCategories : Option DisplayCategories
  legacyIdentifiers : Option LegacyIdentifiers
  friendlyName : Option Str
  deriving DecidableEq

/-- The optional chain endpoint.displayCategories?.primary?.value. -/
def primaryCategoryOf (e : SmartHomeEndpoint) : Option Str :=
  (e.displayCategories.bind (·.primary)).bind (·.value)

/-- The optional chain
endpoint.legacyIdentifiers?.dmsIdentifier?.deviceSerialNumber?.value?.text. -/
def serialOf (e : SmartHomeEndpoint) : Option Str :=
  ((((e.legacyIdentifiers.bind (·.dmsIdentifier)).bind
    (·.deviceSerialNumber)).bind (·.value)).bind (·.text))

/-- The optional chain
endpoint.legacyIdentifiers?.dmsIdentifier?.deviceType?.value?.text. -/
def deviceTypeOf (e : SmartHomeEndpoint) : Option Str :=
  ((((e.legacyIdentifiers.bind (·.dmsIdentifier)).bind
    (·.deviceType)).bind (·.value)).bind (·.text))

/-- The find-predicate of the handlers: the primary display category is the
fixed tag ALEXA_VOICE_ENABLED. -/
def isEchoDevice (e : SmartHomeEndpoint) : Bool :=
  primaryCategoryOf e == some "ALEXA_VOICE_ENABLED".toList

/-- JavaScript truthiness of an optionally-undefined string: defined and
nonempty. -/
def truthyStr : Option Str → Bool
  | none => false
  | some s => !s.isEmpty

/-- The two distinguishable failures of voice-device resolution in the
source: no endpoint with the voice category, or a matched endpoint whose
legacy deviceType/deviceSerialNumber pair is missing. -/
inductive ResolveError where
  | noEchoDevice
  | missingIdentifiers
  deriving DecidableEq

/-- The legacy serial/type pair of the selected voice device. -/
structure VoiceDevice where
  deviceSerialNumber : Str
  deviceType : Str
  deriving DecidableEq

/-- Embedding of the Echo-device resolution: find the first endpoint whose
primary display category is ALEXA_VOICE_ENABLED in upstream order, then
require its legacy deviceType and deviceSerialNumber to be present and
nonempty, exactly as the handlers do. -/
def resolvePrimaryVoiceDevice (endpoints : List SmartHomeEndpoint) :
    Except ResolveError VoiceDevice :=
  match endpoints.find? isEchoDevice with
  | none => .error .noEchoDevice
  | some e =>
    let dt := deviceTypeOf e
    let sn := serialOf e
    if truthyStr dt && truthyStr sn then
      .ok { deviceSerialNumber := sn.getD [], deviceType := dt.getD [] }
    else .error .missingIdentifiers

/-- The OTHER-category endpoint of end-to-end scenario A. -/
def otherEndpoint : SmartHomeEndpoint :=
  { displayCategories := some { primary := some { value := some "OTHER".toList } }
  , legacyIdentifiers := none
  , friendlyName := some "Plug".toList }

/-- Builds a DMS identifier field carrying the given text. -/
def dmsTextField (s : Str) : DmsField :=
  { value := some { text := some s } }

/-- The legacy identifier pair S1/T1 of the scenario-A voice endpoint. -/
def echoDmsIdentifier : DmsIdentifier :=
  { deviceSerialNumber := some (dmsTextField "S1".toList)
  , deviceType := some (dmsTextField "T1".toList) }

/-- The voice-enabled endpoint of end-to-end scenario A, carrying the legacy
pair S1/T1. -/
def echoEndpointS1T1 : SmartHomeEndpoint :=
  { displayCategories :=
      some { primary := some { value := some "ALEXA_VOICE_ENABLED".toList } }
  , legacyIdentifiers := some { dmsIdentifier := some echoDmsIdentifier }
  , friendlyName := some "Echo".toList }

/-- Claim C3: resolution filters for the fixed ALEXA_VOICE_ENABLED category
and takes the first match in upstream order with no secondary sort; on the
two-endpoint scenario it returns the second entry with serial S1 and type
T1; the empty list and any list with no matching endpoint fail with the
no-device error; and a first match lacking the legacy serial/type pair
fails with the distinct missing-identifiers error. -/
theorem resolvePrimaryVoiceDevice_spec :
    resolvePrimaryVoiceDevice [otherEndpoint, echoEndpointS1T1] =
      .ok { deviceSerialNumber := "S1".toList, deviceType := "T1".toList }
    ∧ resolvePrimaryVoiceDevice [] = .error .noEchoDevice
    ∧ (∀ eps : List SmartHomeEndpoint, (∀ e ∈ eps, isEchoDevice e = false) →
        resolvePrimaryVoiceDevice eps = .error .noEchoDevice)
    ∧ (∀ (pre post : List SmartHomeEndpoint) (e : SmartHomeEndpoint),
        (∀ x ∈ pre, isEchoDevice x = false) → isEchoDevice e = true →
        truthyStr (deviceTypeOf e) = true → truthyStr (serialOf e) = true →
        resolvePrimaryVoiceDevice (pre ++ e :: post) =
          .ok { deviceSerialNumber := (serialOf e).getD []
              , deviceType := (deviceTypeOf e).getD [] })
    ∧ (∀ (pre post : List SmartHomeEndpoint) (e : SmartHomeEndpoint),
        (∀ x ∈ pre, isEchoDevice x = false) → isEchoDevice e = true →
        (truthyStr (deviceTypeOf e) && truthyStr (serialOf e)) = false →
        resolvePrimaryVoiceDevice (pre ++ e :: post) =
          .error .missingIdentifiers) := by
  refine ⟨rfl, rfl, ?_, ?_, ?_⟩
  · intro eps hnone
    unfold resolvePrimaryVoiceDevice
    rw [List.find?_eq_none.mpr (fun x hx => by simp [hnone x hx])]
  · intro pre post e hpre he hdt hsn
    unfold resolvePrimaryVoiceDevice
    rw [List.find?_append, List.find?_eq_none.mpr (fun x hx => by simp [hpre x hx]),
      Option.none_or, List.find?_cons_of_pos _ he]
    simp only
    rw [if_pos (by rw [hdt, hsn]; rfl)]
  · intro pre post e hpre he hpair
    unfold resolvePrimaryVoiceDevice
    rw [List.find?_append, List.find?_eq_none.mpr (fun x hx => by simp [hpre x hx]),
      Option.none_or, List.find?_cons_of_pos _ he]
    simp only
    rw [if_neg (by rw [hpair]; simp)]

/-- Witness for claim C3 at concrete inputs: with a non-matching endpoint in
front, resolution still selects the voice endpoint and returns its legacy
pair, and a list of only non-matching endpoints fails with the no-device
error. -/
theorem resolvePrimaryVoiceDevice_spec_witness :
    resolvePrimaryVoiceDevice ([otherEndpoint] ++ echoEndpointS1T1 :: [otherEndpoint]) =
      .ok { deviceSerialNumber := "S1".toList, deviceType := "T1".toList }
    ∧ resolvePrimaryVoiceDevice [otherEndpoint] = .error .noEchoDevice := by
  constructor
  · exact (resolvePrimaryVoiceDevice_spec.2.2.2.1 [otherEndpoint] [otherEndpoint]
      echoEndpointS1T1 (by decide) (by decide) (by decide) (by decide))
  · exact resolvePrimaryVoiceDevice_spec.2.2.1 [otherEndpoint] (by decide)

/-
SequenceCommandBuilder: embedding of the behavior-sequence construction
shared by the announce, music-control, play-music and text-command
handlers, including the quote-escaping rule and the JSON serialization
of the fixed envelope.
-/

/-- The escaping rule applied to every free-text field before embedding:
every double-quote character becomes a single-quote character, mirroring
text.replace with a global double-quote regex in the source. -/
def escapeQuotes (s : Str) : Str :=
  s.map (fun c => if c == quoteChar then apostropheChar else c)

/-- Lower-case hexadecimal digit for JSON control-character escapes. -/
def hexDigitChar (n : Nat) : Char :=
  if n < 10 then Char.ofNat (48 + n) else Char.ofNat (87 + n)

/-- JSON.stringify escaping of one character inside a string literal. -/
def jsonEscapeChar (c : Char) : Str :=
  if c == quoteChar then [backslashChar, quoteChar]
  else if c == backslashChar then [backslashChar, backslashChar]
  else if c == '\n' then [backslashChar, 'n']
  else if c == '\r' then [backslashChar, 'r']
  else if c == '\t' then [backslashChar, 't']
  else if c == '\x08' then [backslashChar, 'b']
  else if c == '\x0c' then [backslashChar, 'f']
  else if c.toNat < 32 then
    [backslashChar, 'u', '0', '0', hexDigitChar (c.toNat / 16), hexDigitChar (c.toNat % 16)]
  else [c]

/-- JSON.stringify escaping of a whole string body. -/
def jsonEscape (s : Str) : Str := (s.map jsonEscapeChar).flatten

/-- A JSON string literal: escaped body between double quotes. -/
def jsonQuote (s : Str) : Str := quoteChar :: (jsonEscape s ++ [quoteChar])

/-- One key/value member of a JSON object. -/
def jsonField (k v : Str) : Str := jsonQuote k ++ (':' :: v)

/-- A JSON object from already-serialized member values, keys in insertion
order as JSON.stringify emits them. -/
def jsonObject (fields : List (Str × Str)) : Str :=
  Char.ofNat 123 ::
    (List.intercalate [','] (fields.map fun f => jsonField f.1 f.2) ++ [Char.ofNat 125])

/-- The operation payload of one behavior node; one constructor per
operation type used by the handlers, fields in the source's key order. -/
inductive OperationPayload where
  | speak (deviceType deviceSerialNumber customerId locale textToSpeak : Str)
  | textCommand (deviceType deviceSerialNumber customerId locale skillId text : Str)
  | playSearchPhrase
      (deviceType deviceSerialNumber customerId locale musicProviderId searchPhrase : Str)
  deriving DecidableEq

/-- One operation node of a behavior sequence. -/
structure OperationNode where
  atType : Str
  opType : Str
  operationPayload : OperationPayload
  deriving DecidableEq

/-- The fixed @type tag of every operation node. -/
def opaqueNodeType : Str :=
  "com.amazon.alexa.behaviors.model.OpaquePayloadOperationNode".toList

/-- The Alexa.Speak operation node built by the announce handler: locale
en-US and the quote-escaped text to speak. -/
def speakOperationNode (deviceType deviceSerialNumber customerId textToSpeakRaw : Str) :
    OperationNode :=
  { atType := opaqueNodeType
  , opType := "Alexa.Speak".toList
  , operationPayload :=
      .speak deviceType deviceSerialNumber customerId "en-US".toList
        (escapeQuotes textToSpeakRaw) }

/-- The Alexa.TextCommand operation node built by the music-control and
text-command handlers: fixed skill id and the quote-escaped command text. -/
def textCommandOperationNode (deviceType deviceSerialNumber customerId textRaw : Str) :
    OperationNode :=
  { atType := opaqueNodeType
  , opType := "Alexa.TextCommand".toList
  , operationPayload :=
      .textCommand deviceType deviceSerialNumber customerId "en-US".toList
        "amzn1.ask.1p.tellalexa".toList (escapeQuotes textRaw) }

/-- The upper-casing applied to the provider name by the play-music handler. -/
def toUpperStr (s : Str) : Str := s.map Char.toUpper

/-- The Alexa.Music.PlaySearchPhrase operation node built by the play-music
handler: upper-cased provider id and the quote-escaped search phrase. -/
def playSearchPhraseOperationNode
    (deviceType deviceSerialNumber customerId provider searchPhraseRaw : Str) :
    OperationNode :=
  { atType := opaqueNodeType
  , opType := "Alexa.Music.PlaySearchPhrase".toList
  , operationPayload :=
      .playSearchPhrase deviceType deviceSerialNumber customerId "en-US".toList
        (toUpperStr provider) (escapeQuotes searchPhraseRaw) }

/-- The parallel start node of a behavior sequence. -/
structure ParallelNode where
  atType : Str
  nodesToExecute : List OperationNode
  deriving DecidableEq

/-- The outer sequence object. -/
structure SequenceObj where
  atType : Str
  startNode : ParallelNode
  deriving DecidableEq

/-- Builds the sequence object exactly as every handler does: a Sequence
whose startNode is a ParallelNode executing the single operation node. -/
def mkSequence (op : OperationNode) : SequenceObj :=
  { atType := "com.amazon.alexa.behaviors.model.Sequence".toList
  , startNode :=
      { atType := "com.amazon.alexa.behaviors.model.ParallelNode".toList
      , nodesToExecute := [op] } }

/-- JSON.stringify of an operation payload, keys in source order. -/
def stringifyPayload : OperationPayload → Str
  | .speak dt sn cid loc tts =>
    jsonObject
      [("deviceType".toList, jsonQuote dt), ("deviceSerialNumber".toList, jsonQuote sn),
       ("customerId".toList, jsonQuote cid), ("locale".toList, jsonQuote loc),
       ("textToSpeak".toList, jsonQuote tts)]
  | .textCommand dt sn cid loc skill tx =>
    jsonObject
      [("deviceType".toList, jsonQuote dt), ("deviceSerialNumber".toList, jsonQuote sn),
       ("customerId".toList, jsonQuote cid), ("locale".toList, jsonQuote loc),
       ("skillId".toList, jsonQuote skill), ("text".toList, jsonQuote tx)]
  | .playSearchPhrase dt sn cid loc prov sp =>
    jsonObject
      [("deviceType".toList, jsonQuote dt), ("deviceSerialNumber".toList, jsonQuote sn),
       ("customerId".toList, jsonQuote cid), ("locale".toList, jsonQuote loc),
       ("musicProviderId".toList, jsonQuote prov), ("searchPhrase".toList, jsonQuote sp)]

/-- JSON.stringify of an operation node. -/
def stringifyOperationNode (n : OperationNode) : Str :=
  jsonObject
    [("@type".toList, jsonQuote n.atType), ("type".toList, jsonQuote n.opType),
     ("operationPayload".toList, stringifyPayload n.operationPayload)]

/-- JSON.stringify of the parallel start node. -/
def stringifyParallelNode (p : ParallelNode) : Str :=
  jsonObject
    [("@type".toList, jsonQuote p.atType),
     ("nodesToExecute".toList,
       '[' :: (List.intercalate [','] (p.nodesToExecute.map stringifyOperationNode)
         ++ [']']))]

/-- JSON.stringify of the sequence object. -/
def stringifySequence (q : SequenceObj) : Str :=
  jsonObject
    [("@type".toList, jsonQuote q.atType),
     ("startNode".toList, stringifyParallelNode q.startNode)]

/-- The behavior command posted to /api/behaviors/preview. -/
structure BehaviorCommand where
  behaviorId : Str
  sequenceJson : Str
  status : Str
  deriving DecidableEq

/-- Builds the behavior command exactly as every handler does: the PREVIEW
behavior id, the stringified sequence, and the ENABLED status. -/
def mkBehaviorCommand (op : OperationNode) : BehaviorCommand :=
  { behaviorId := "PREVIEW".toList
  , sequenceJson := stringifySequence (mkSequence op)
  , status := "ENABLED".toList }

theorem escapeQuotes_no_quote (s : Str) :
    (escapeQuotes s).contains quoteChar = false := by
  by_contra hc
  have hmem : quoteChar ∈ escapeQuotes s := by simpa [List.contains] using hc
  obtain ⟨c, -, heq⟩ := List.mem_map.mp hmem
  by_cases h : (c == quoteChar) = true
  · rw [if_pos h] at heq
    exact absurd heq (by decide)
  · rw [if_neg h] at heq
    exact h (by simp [heq])

theorem escapeQuotes_id (s : Str) (h : s.contains quoteChar = false) :
    escapeQuotes s = s := by
  have hnot : quoteChar ∉ s := by
    intro hm
    rw [show s.contains quoteChar = true by simpa [List.contains] using hm] at h
    exact absurd h (by simp)
  calc escapeQuotes s
      = s.map id := List.map_congr_left (fun c hcs => by
        have : (c == quoteChar) = false := by
          cases hq : c == quoteChar with
          | true => exact absurd (by simpa using hq : c = quoteChar) (fun he => hnot (he ▸ hcs))
          | false => rfl
        simp [this])
    _ = s := List.map_id s

/-- Claim C4: every free-text field of a built sequence -- speech text,
text-command text and search phrase -- is quote-escaped before being
embedded: the escape replaces every double quote with a single quote, so
the escaped output never contains a double quote; input without double
quotes is unchanged; and the Speak scenario with text Say "hi" yields the
payload field Say 'hi'. -/
theorem escapeQuotes_spec :
    (∀ s : Str, (escapeQuotes s).contains quoteChar = false)
    ∧ (∀ s : Str, s.contains quoteChar = false → escapeQuotes s = s)
    ∧ (∀ dt sn cid raw, (speakOperationNode dt sn cid raw).operationPayload =
        .speak dt sn cid "en-US".toList (escapeQuotes raw))
    ∧ (∀ dt sn cid raw, (textCommandOperationNode dt sn cid raw).operationPayload =
        .textCommand dt sn cid "en-US".toList "amzn1.ask.1p.tellalexa".toList
          (escapeQuotes raw))
    ∧ (∀ dt sn cid prov raw,
        (playSearchPhraseOperationNode dt sn cid prov raw).operationPayload =
          .playSearchPhrase dt sn cid "en-US".toList (toUpperStr prov)
            (escapeQuotes raw))
    ∧ (∀ dt sn cid,
        (speakOperationNode dt sn cid
            ("Say ".toList ++ quoteChar :: "hi".toList ++ [quoteChar])).operationPayload =
          .speak dt sn cid "en-US".toList
            ("Say ".toList ++ apostropheChar :: "hi".toList ++ [apostropheChar])) :=
  ⟨escapeQuotes_no_quote, escapeQuotes_id,
   fun _ _ _ _ => rfl, fun _ _ _ _ => rfl, fun _ _ _ _ _ => rfl,
   fun _ _ _ => rfl⟩

/-- Witness for claim C4 at a concrete input: text without double quotes is
preserved by the escape. -/
theorem escapeQuotes_spec_witness :
    escapeQuotes "Dinner is ready".toList = "Dinner is ready".toList :=
  escapeQuotes_spec.2.1 "Dinner is ready".toList (by decide)

/-- Claim C5: for every operation node of any supported type, the built
behavior command is the object with behaviorId PREVIEW, status ENABLED and
sequenceJson the stringified sequence; and that string always nests the
single operation exactly two levels deep -- a Sequence whose startNode is
a ParallelNode whose nodesToExecute array holds exactly the one serialized
operation node. -/
theorem mkBehaviorCommand_spec (op : OperationNode) :
    (mkBehaviorCommand op).behaviorId = "PREVIEW".toList
    ∧ (mkBehaviorCommand op).status = "ENABLED".toList
    ∧ (mkBehaviorCommand op).sequenceJson =
        "\x7b\"@type\":\"com.amazon.alexa.behaviors.model.Sequence\",\"startNode\":\x7b\"@type\":\"com.amazon.alexa.behaviors.model.ParallelNode\",\"nodesToExecute\":[".toList
          ++ stringifyOperationNode op ++ "]\x7d\x7d".toList
    ∧ (mkSequence op).startNode.nodesToExecute = [op] := by
  refine ⟨rfl, rfl, ?_, rfl⟩
  simp [mkBehaviorCommand, stringifySequence, mkSequence, stringifyParallelNode,
    jsonObject, jsonField, jsonQuote, jsonEscape, jsonEscapeChar, quoteChar,
    backslashChar, List.intercalate, List.intersperse, hexDigitChar]

/-
Playback command mapping: embedding of commandMap and textCommandMap from
the music-control handler.
-/

/-- The lookup table from the request's lower-cased command word to the
Alexa command type, one entry per key of the source's commandMap object. -/
def commandMap (cmd : Str) : Option Str :=
  if cmd = "play".toList then some "PlayCommand".toList
  else if cmd = "pause".toList then some "PauseCommand".toList
  else if cmd = "next".toList then some "NextCommand".toList
  else if cmd = "prev".toList then some "PreviousCommand".toList
  else if cmd = "previous".toList then some "PreviousCommand".toList
  else if cmd = "forward".toList then some "ForwardCommand".toList
  else if cmd = "fwd".toList then some "ForwardCommand".toList
  else if cmd = "rewind".toList then some "RewindCommand".toList
  else if cmd = "rwd".toList then some "RewindCommand".toList
  else none

/-- The lookup table from the Alexa command type to the canonical
natural-language phrase sent over the text-command channel. -/
def textCommandMap (commandType : Str) : Option Str :=
  if commandType = "PlayCommand".toList then some "resume music".toList
  else if commandType = "PauseCommand".toList then some "pause music".toList
  else if commandType = "NextCommand".toList then some "next song".toList
  else if commandType = "PreviousCommand".toList then some "previous song".toList
  else if commandType = "ForwardCommand".toList then some "fast forward".toList
  else if commandType = "RewindCommand".toList then some "rewind".toList
  else none

/-- Lower-casing as applied by the handler's toLowerCase calls. -/
def toLowerStr (s : Str) : Str := s.map Char.toLower

/-- Replacement of the first occurrence of a pattern, as the one-argument
string form of JavaScript's String.replace does. -/
def replaceFirst (pat repl : Str) : Str → Str
  | [] => []
  | c :: cs =>
    if pat.isPrefixOf (c :: cs) then repl ++ (c :: cs).drop pat.length
    else c :: replaceFirst pat repl cs

/-- The phrase sent for a command type: the textCommandMap entry, or the
source's fallback of lower-casing and dropping the literal Command. -/
def textCommandFor (commandType : Str) : Str :=
  match textCommandMap commandType with
  | some t => t
  | none => replaceFirst "Command".toList [] (toLowerStr commandType)

/-- The operation node built by the music-control handler for a command
type: an Alexa.TextCommand node whose text is the mapped phrase. -/
def musicControlOperationNode (deviceType deviceSerialNumber customerId commandType : Str) :
    OperationNode :=
  textCommandOperationNode deviceType deviceSerialNumber customerId
    (textCommandFor commandType)

/-- Claim C8: every named playback command is sent as an Alexa.TextCommand
operation whose text is the fixed canonical phrase: PlayCommand maps to
resume music, PauseCommand to pause music, NextCommand to next song,
PreviousCommand to previous song, ForwardCommand to fast forward and
RewindCommand to rewind; the request words map onto these command types
through commandMap, and no structured playback endpoint is involved. -/
theorem playbackCommands_spec :
    commandMap "play".toList = some "PlayCommand".toList
    ∧ commandMap "pause".toList = some "PauseCommand".toList
    ∧ commandMap "next".toList = some "NextCommand".toList
    ∧ commandMap "prev".toList = some "PreviousCommand".toList
    ∧ commandMap "forward".toList = some "ForwardCommand".toList
    ∧ commandMap "rewind".toList = some "RewindCommand".toList
    ∧ textCommandFor "PlayCommand".toList = "resume music".toList
    ∧ textCommandFor "PauseCommand".toList = "pause music".toList
    ∧ textCommandFor "NextCommand".toList = "next song".toList
    ∧ textCommandFor "PreviousCommand".toList = "previous song".toList
    ∧ textCommandFor "ForwardCommand".toList = "fast forward".toList
    ∧ textCommandFor "RewindCommand".toList = "rewind".toList
    ∧ (∀ dt sn cid ct, (musicControlOperationNode dt sn cid ct).opType =
        "Alexa.TextCommand".toList)
    ∧ (∀ dt sn cid, (musicControlOperationNode dt sn cid "PlayCommand".toList).operationPayload =
        .textCommand dt sn cid "en-US".toList "amzn1.ask.1p.tellalexa".toList
          "resume music".toList) := by
  refine ⟨by decide, by decide, by decide, by decide, by decide, by decide,
    by decide, by decide, by decide, by decide, by decide, by decide,
    fun _ _ _ _ => rfl, fun _ _ _ => rfl⟩

/-
HeaderBuilder: embedding of buildAlexaHeaders from utils/alexa.ts.  The
JavaScript object literal is modelled as an association list in insertion
order; the spread of the additional headers appends them last, and a
later entry with the same key overrides an earlier one, which the lookup
function below realizes by searching from the end.
-/

/-- The environment secrets consumed by the header builder. -/
structure Env where
  UBID_MAIN : String
  AT_MAIN : String
  deriving DecidableEq

/-- The fixed mobile-client user-agent string. -/
def USER_AGENT : String :=
  "PitanguiBridge/2.2.629941.0-[PLATFORM=Android][MANUFACTURER=samsung][RELEASE=12][BRAND=Redmi][SDK=31][MODEL=SM-S928B]"

/-- The cookie string: canonical non-regional cookie names csrf, ubid-main
and at-main regardless of where the values came from. -/
def cookieStringOf (env : Env) : String :=
  "csrf=1; ubid-main=" ++ env.UBID_MAIN ++ "; at-main=" ++ env.AT_MAIN

/-- The five headers the builder always sets, in insertion order. -/
def baseHeaders (env : Env) (csrfToken : String) : List (String × String) :=
  [("Cookie", cookieStringOf env),
   ("csrf", csrfToken),
   ("Accept", "application/json; charset=utf-8"),
   ("Accept-Language", "en-US"),
   ("User-Agent", USER_AGENT)]

/-- Embedding of buildAlexaHeaders: the base headers followed by the
caller-supplied additional headers, which are spread last. -/
def buildAlexaHeaders (env : Env) (additional : List (String × String))
    (csrfToken : String) : List (String × String) :=
  baseHeaders env csrfToken ++ additional

/-- Key lookup in a header object: the last binding of a key wins, as with
duplicate keys in a JavaScript object literal built by spreading. -/
def headerLookup (hs : List (String × String)) (k : String) : Option String :=
  match hs.reverse.find? (fun p => p.1 == k) with
  | some p => some p.2
  | none => none

theorem headerLookup_append (a b : List (String × String)) (k : String) :
    headerLookup (a ++ b) k =
      match headerLookup b k with
      | some v => some v
      | none => headerLookup a k := by
  unfold headerLookup
  rw [List.reverse_append, List.find?_append]
  cases hb : b.reverse.find? (fun p => p.1 == k) with
  | none => simp
  | some p => simp

/-- Claim C6: the built header map carries the Cookie header with canonical
non-regional cookie names around the configured values, the lowercase csrf
header with the supplied token (the sentinel 1 when the caller opted out),
Accept, Accept-Language and the fixed mobile-client user-agent, while any
caller-supplied extra header is merged last and overrides these entries. -/
theorem buildAlexaHeaders_spec (env : Env) (additional : List (String × String))
    (tok : String) :
    (headerLookup additional "Cookie" = none →
      headerLookup (buildAlexaHeaders env additional tok) "Cookie" =
        some ("csrf=1; ubid-main=" ++ env.UBID_MAIN ++ "; at-main=" ++ env.AT_MAIN))
    ∧ (headerLookup additional "csrf" = none →
      headerLookup (buildAlexaHeaders env additional tok) "csrf" = some tok)
    ∧ (headerLookup additional "Accept" = none →
      headerLookup (buildAlexaHeaders env additional tok) "Accept" =
        some "application/json; charset=utf-8")
    ∧ (headerLookup additional "Accept-Language" = none →
      headerLookup (buildAlexaHeaders env additional tok) "Accept-Language" =
        some "en-US")
    ∧ (headerLookup additional "User-Agent" = none →
      headerLookup (buildAlexaHeaders env additional tok) "User-Agent" =
        some USER_AGENT)
    ∧ (∀ k v, headerLookup additional k = some v →
      headerLookup (buildAlexaHeaders env additional tok) k = some v)
    ∧ headerLookup (buildAlexaHeaders env [] "1") "csrf" = some "1" := by
  refine ⟨?_, ?_, ?_, ?_, ?_, ?_, rfl⟩
  all_goals intro h
  · rw [buildAlexaHeaders, headerLookup_append, h]; rfl
  · rw [buildAlexaHeaders, headerLookup_append, h]; rfl
  · rw [buildAlexaHeaders, headerLookup_append, h]; rfl
  · rw [buildAlexaHeaders, headerLookup_append, h]; rfl
  · rw [buildAlexaHeaders, headerLookup_append, h]; rfl
  · intro v hv
    rw [buildAlexaHeaders, headerLookup_append, hv]

/-- Witness for claim C6 at concrete inputs: with one extra header the base
entries are all present, and a caller-supplied Accept overrides the base
Accept. -/
theorem buildAlexaHeaders_spec_witness :
    headerLookup (buildAlexaHeaders ⟨"U1", "A1"⟩ [("Content-Type", "application/json")] "tok")
        "Cookie" = some "csrf=1; ubid-main=U1; at-main=A1"
    ∧ headerLookup (buildAlexaHeaders ⟨"U1", "A1"⟩ [("Accept", "text/plain")] "tok")
        "Accept" = some "text/plain" := by
  constructor
  · exact (buildAlexaHeaders_spec ⟨"U1", "A1"⟩ [("Content-Type", "application/json")]
      "tok").1 (by decide)
  · exact (buildAlexaHeaders_spec ⟨"U1", "A1"⟩ [("Accept", "text/plain")]
      "tok").2.2.2.2.2.1 "Accept" "text/plain" (by decide)

/-
ResourceDirectory cache.  The alexa-dynamic module that implements the
cache is not among the provided sources, so the cache policy is modelled
from the spec.
-/

/-- Modelled from the spec: one DirectoryCache entry, a value together with
the time it was fetched.  The alexa-dynamic module holding the cache code
is missing from the provided sources. -/
structure CacheEntry (α : Type) where
  value : α
  fetchedAt : Nat
  deriving DecidableEq

/-- Modelled from the spec: one cached read of a ResourceDirectory value
with injectable clock and ttl.  The read serves the stored entry when
now - fetchedAt is within ttl and otherwise recomputes; the second
component counts the upstream fetches this read performs. -/
def cacheRead {α : Type} (entry : Option (CacheEntry α)) (now ttl : Nat)
    (fetchFresh : α) : CacheEntry α × Nat :=
  match entry with
  | some e => if ttl < now - e.fetchedAt then ({ value := fetchFresh, fetchedAt := now }, 1) else (e, 0)
  | none => ({ value := fetchFresh, fetchedAt := now }, 1)

/-- Claim C7: a read within the ttl window returns the identical cached
value with zero upstream fetches -- in particular a second read shortly
after a first fetch returns exactly what the first stored -- while a read
after ttl expiry performs exactly one upstream fetch and returns an entry
whose fetch timestamp is updated to the current time; a cold read also
fetches exactly once. -/
theorem cacheRead_spec {α : Type} (e : CacheEntry α) (now ttl : Nat) (fresh : α) :
    (now - e.fetchedAt ≤ ttl → cacheRead (some e) now ttl fresh = (e, 0))
    ∧ (ttl < now - e.fetchedAt →
        cacheRead (some e) now ttl fresh = ({ value := fresh, fetchedAt := now }, 1))
    ∧ cacheRead (none : Option (CacheEntry α)) now ttl fresh =
        ({ value := fresh, fetchedAt := now }, 1)
    ∧ (∀ t1 (v f2 : α), now - t1 ≤ ttl →
        cacheRead (some (cacheRead (none : Option (CacheEntry α)) t1 ttl v).1) now ttl f2 =
          ((cacheRead (none : Option (CacheEntry α)) t1 ttl v).1, 0)) := by
  refine ⟨?_, ?_, rfl, ?_⟩
  · intro hin
    simp only [cacheRead]
    rw [if_neg (by omega)]
  · intro hout
    simp only [cacheRead]
    rw [if_pos hout]
  · intro t1 v f2 hin
    simp only [cacheRead]
    rw [if_neg (by omega)]

/-- Witness for claim C7 at concrete times: with ttl 300, a read 10 ticks
after the fetch serves the cache without fetching, and a read 301 ticks
later refetches once with the timestamp updated. -/
theorem cacheRead_spec_witness :
    cacheRead (some { value := 7, fetchedAt := 100 }) 110 300 9 =
      ({ value := 7, fetchedAt := 100 }, 0)
    ∧ cacheRead (some { value := 7, fetchedAt := 100 }) 401 300 9 =
      ({ value := 9, fetchedAt := 401 }, 1) := by
  constructor
  · exact (cacheRead_spec { value := 7, fetchedAt := 100 } 110 300 9).1 (by decide)
  · exact (cacheRead_spec { value := 7, fetchedAt := 100 } 401 300 9).2.1 (by decide)

/-
Announce handler: embedding of the control flow of announceHandler from
api/v1/announce.ts.  Network interactions are abstracted: the light-state
probe, the device-info resolution and the behavior post are inputs, and
the result records the HTTP status together with the ordered list of
upstream interactions the handler performed.
-/

/-- A parsed announce request body; a missing field models a missing JSON
key. -/
structure AnnounceBody where
  name : Option Str
  message : Option Str
  ssml : Option Str
  deriving DecidableEq

/-- The upstream interactions the announce handler can perform, in order:
the night-time light-state check, the device-information lookup, and the
behavior-command post. -/
inductive AnnounceEffect where
  | lightCheck
  | deviceInfoFetch
  | behaviorPost
  deriving DecidableEq

/-- The observable outcome of one announce request: the HTTP status of the
response and the upstream interactions performed. -/
structure AnnounceResult where
  status : Nat
  effects : List AnnounceEffect
  deriving DecidableEq

/-- JavaScript String.trim: whitespace removed from both ends. -/
def trimStr (s : Str) : Str :=
  ((s.dropWhile isJsSpace).reverse.dropWhile isJsSpace).reverse

/-- The expression parsed.ssml?.trim() || parsed.message?.trim() || "": the
trimmed ssml when present and nonempty, else the trimmed message when
present and nonempty, else the empty string. -/
def textToSpeakRawOf (b : AnnounceBody) : Str :=
  let fromMessage :=
    match b.message with
    | some m => if (trimStr m).isEmpty then [] else trimStr m
    | none => []
  match b.ssml with
  | some s => if (trimStr s).isEmpty then fromMessage else trimStr s
  | none => fromMessage

/-- The expression env.TZ || default used to pick the announcement
timezone. -/
def tzOf (tz : Option String) : String :=
  match tz with
  | some t => if t.isEmpty then "America/New_York" else t
  | none => "America/New_York"

/-- Embedding of announceHandler after environment-schema validation: the
credentials check, JSON parsing (none models a parse failure), input
validation, the day/night split on the local hour with the night-time
light guard, then device-info resolution (none models any failure inside
that step) and the behavior post with the given upstream status. -/
def announceHandler (env : Env) (body : Option AnnounceBody) (hourTz : Nat)
    (lightOn : Option Bool) (deviceInfo : Option VoiceDevice) (postStatus : Nat) :
    AnnounceResult :=
  if env.UBID_MAIN.isEmpty || env.AT_MAIN.isEmpty then { status := 500, effects := [] }
  else
    match body with
    | none => { status := 400, effects := [] }
    | some parsed =>
      let name := trimStr (parsed.name.getD [])
      let textToSpeakRaw := textToSpeakRawOf parsed
      if name.isEmpty || textToSpeakRaw.isEmpty then { status := 400, effects := [] }
      else if 40 < name.length then { status := 400, effects := [] }
      else if 500 < textToSpeakRaw.length then { status := 400, effects := [] }
      else
        let isDay := decide (10 ≤ hourTz) && decide (hourTz < 22)
        let preEffects := if isDay then [] else [AnnounceEffect.lightCheck]
        if !isDay && lightOn == some false then { status := 403, effects := preEffects }
        else
          match deviceInfo with
          | none => { status := 500, effects := preEffects ++ [.deviceInfoFetch] }
          | some _ =>
            if respOk postStatus then
              { status := 200, effects := preEffects ++ [.deviceInfoFetch, .behaviorPost] }
            else
              { status := postStatus
              , effects := preEffects ++ [.deviceInfoFetch, .behaviorPost] }

theorem announceHandler_validated (env : Env) (b : AnnounceBody) (hour : Nat)
    (light : Option Bool) (device : Option VoiceDevice) (post : Nat)
    (hcu : env.UBID_MAIN.isEmpty = false) (hca : env.AT_MAIN.isEmpty = false)
    (hname : (trimStr (b.name.getD [])).isEmpty = false)
    (hnlen : (trimStr (b.name.getD [])).length ≤ 40)
    (htext : (textToSpeakRawOf b).isEmpty = false)
    (htlen : (textToSpeakRawOf b).length ≤ 500) :
    announceHandler env (some b) hour light device post =
      (let isDay := decide (10 ≤ hour) && decide (hour < 22)
       let preEffects := if isDay then [] else [AnnounceEffect.lightCheck]
       if !isDay && light == some false then { status := 403, effects := preEffects }
       else
         match device with
         | none => { status := 500, effects := preEffects ++ [.deviceInfoFetch] }
         | some _ =>
           if respOk post then
             { status := 200, effects := preEffects ++ [.deviceInfoFetch, .behaviorPost] }
           else
             { status := post
             , effects := preEffects ++ [.deviceInfoFetch, .behaviorPost] }) := by
  simp only [announceHandler]
  rw [if_neg (by simp [hcu, hca])]
  rw [if_neg (by simp [hname, htext])]
  rw [if_neg (by omega)]
  rw [if_neg (by omega)]

/-- Claim C9: when the local hour is before 10 or at or after 22, the
handler performs the light check before anything else; a definitive
light-off answer rejects the request with 403 and nothing is posted
upstream; a light-on or inconclusive answer lets the announcement proceed
to the behavior post when device resolution succeeds; and between hours 10
and 21 inclusive no light check is performed at all. -/
theorem announce_night_guard (env : Env) (b : AnnounceBody) (hour : Nat)
    (light : Option Bool) (device : Option VoiceDevice) (post : Nat)
    (hcu : env.UBID_MAIN.isEmpty = false) (hca : env.AT_MAIN.isEmpty = false)
    (hname : (trimStr (b.name.getD [])).isEmpty = false)
    (hnlen : (trimStr (b.name.getD [])).length ≤ 40)
    (htext : (textToSpeakRawOf b).isEmpty = false)
    (htlen : (textToSpeakRawOf b).length ≤ 500) :
    (hour < 10 ∨ 22 ≤ hour →
      (announceHandler env (some b) hour light device post).effects.head? =
        some .lightCheck
      ∧ (light = some false →
          announceHandler env (some b) hour light device post =
            { status := 403, effects := [.lightCheck] })
      ∧ (light = some true ∨ light = none → device ≠ none →
          AnnounceEffect.behaviorPost ∈
            (announceHandler env (some b) hour light device post).effects))
    ∧ (10 ≤ hour → hour < 22 →
        AnnounceEffect.lightCheck ∉
          (announceHandler env (some b) hour light device post).effects) := by
  have hred := announceHandler_validated env b hour light device post
    hcu hca hname hnlen htext htlen
  constructor
  · intro hnight
    have hday : (decide (10 ≤ hour) && decide (hour < 22)) = false := by
      rcases hnight with h | h <;> simp <;> omega
    refine ⟨?_, fun hlf => ?_, fun hlo hdev => ?_⟩
    · rw [hred]
      cases hq : light == some false with
      | true => simp [hday, hq]
      | false =>
        cases device with
        | none => simp [hday, hq]
        | some d => by_cases hp : respOk post = true <;> simp [hday, hq, hp]
    · subst hlf
      rw [hred]
      simp [hday]
    · have hq : (light == some false) = false := by
        rcases hlo with rfl | rfl <;> decide
      rw [hred]
      cases device with
      | none => exact absurd rfl hdev
      | some d => by_cases hp : respOk post = true <;> simp [hday, hq, hp]
  · intro h10 h22
    have hday : (decide (10 ≤ hour) && decide (hour < 22)) = true := by
      simp
      omega
    rw [hred]
    cases device with
    | none => simp [hday]
    | some d => by_cases hp : respOk post = true <;> simp [hday, hp]

/-- Witness for claim C9 at concrete inputs: at hour 23 with the light
reported off the request is rejected with 403 after only the light check,
and at hour 12 the light check is skipped. -/
theorem announce_night_guard_witness :
    announceHandler { UBID_MAIN := "U1", AT_MAIN := "A1" }
        (some { name := some "Bob".toList, message := some "hi".toList, ssml := none })
        23 (some false) (some { deviceSerialNumber := "S1".toList, deviceType := "T1".toList })
        200 = { status := 403, effects := [.lightCheck] }
    ∧ AnnounceEffect.lightCheck ∉
        (announceHandler { UBID_MAIN := "U1", AT_MAIN := "A1" }
          (some { name := some "Bob".toList, message := some "hi".toList, ssml := none })
          12 (some false) (some { deviceSerialNumber := "S1".toList, deviceType := "T1".toList })
          200).effects := by
  constructor
  · exact ((announce_night_guard { UBID_MAIN := "U1", AT_MAIN := "A1" }
      { name := some "Bob".toList, message := some "hi".toList, ssml := none }
      23 (some false) (some { deviceSerialNumber := "S1".toList, deviceType := "T1".toList })
      200 (by decide) (by decide) (by decide) (by decide) (by decide) (by decide)).1
      (by omega)).2.1 rfl
  · exact (announce_night_guard { UBID_MAIN := "U1", AT_MAIN := "A1" }
      { name := some "Bob".toList, message := some "hi".toList, ssml := none }
      12 (some false) (some { deviceSerialNumber := "S1".toList, deviceType := "T1".toList })
      200 (by decide) (by decide) (by decide) (by decide) (by decide) (by decide)).2
      (by omega) (by omega)

/-- The body used to refute claim C10 as stated: ssml present but
whitespace-only, message nonempty. -/
def ssmlBlankBody : AnnounceBody :=
  { name := some "Bob".toList, message := some "hi".toList
  , ssml := some "   ".toList }

/-- Claim C10 counterexample: with ssml present but trimming to empty and a
nonempty message, the claim's reading -- ssml takes precedence whenever it
is present -- makes the trimmed text to speak empty and demands HTTP 400
with no vendor request; the handler instead falls back to the message,
proceeds, and posts the behavior command, answering 200. -/
theorem announce_ssml_counterexample :
    ssmlBlankBody.ssml = some "   ".toList
    ∧ (trimStr "   ".toList).isEmpty = true
    ∧ textToSpeakRawOf ssmlBlankBody = "hi".toList
    ∧ announceHandler { UBID_MAIN := "U1", AT_MAIN := "A1" } (some ssmlBlankBody) 12
        none (some { deviceSerialNumber := "S1".toList, deviceType := "T1".toList })
        200 =
        { status := 200, effects := [.deviceInfoFetch, .behaviorPost] } :=
  ⟨rfl, by decide, by decide, by decide⟩

/-- Claim C10 (amended): the announce operation enforces its input limits
before any upstream call: the trimmed name must be nonempty and at most 40
characters, and the text to speak -- the trimmed ssml field when that is
nonempty, otherwise the trimmed message field -- must be nonempty and at
most 500 characters; any violation yields HTTP 400 and no upstream
interaction is performed. -/
theorem announce_validation_spec (env : Env) (b : AnnounceBody) (hour : Nat)
    (light : Option Bool) (device : Option VoiceDevice) (post : Nat)
    (hcu : env.UBID_MAIN.isEmpty = false) (hca : env.AT_MAIN.isEmpty = false) :
    ((trimStr (b.name.getD [])).isEmpty = true →
        announceHandler env (some b) hour light device post =
          { status := 400, effects := [] })
    ∧ ((textToSpeakRawOf b).isEmpty = true →
        announceHandler env (some b) hour light device post =
          { status := 400, effects := [] })
    ∧ (40 < (trimStr (b.name.getD [])).length →
        announceHandler env (some b) hour light device post =
          { status := 400, effects := [] })
    ∧ (500 < (textToSpeakRawOf b).length →
        announceHandler env (some b) hour light device post =
          { status := 400, effects := [] })
    ∧ (∀ s, b.ssml = some s → (trimStr s).isEmpty = false →
        textToSpeakRawOf b = trimStr s) := by
  refine ⟨?_, ?_, ?_, ?_, ?_⟩
  · intro h
    simp only [announceHandler]
    rw [if_neg (by simp [hcu, hca])]
    rw [if_pos (by simp [h])]
  · intro h
    simp only [announceHandler]
    rw [if_neg (by simp [hcu, hca])]
    rw [if_pos (by simp [h])]
  · intro h
    simp only [announceHandler]
    rw [if_neg (by simp [hcu, hca])]
    by_cases h1 : ((trimStr (b.name.getD [])).isEmpty ||
        (textToSpeakRawOf b).isEmpty) = true
    · rw [if_pos h1]
    · rw [if_neg h1, if_pos h]
  · intro h
    simp only [announceHandler]
    rw [if_neg (by simp [hcu, hca])]
    by_cases h1 : ((trimStr (b.name.getD [])).isEmpty ||
        (textToSpeakRawOf b).isEmpty) = true
    · rw [if_pos h1]
    · rw [if_neg h1]
      by_cases h2 : 40 < (trimStr (b.name.getD [])).length
      · rw [if_pos h2]
      · rw [if_neg h2, if_pos h]
  · intro s hs hne
    simp [textToSpeakRawOf, hs, hne]

set_option maxRecDepth 8192 in
/-- Witness for the amended claim C10 at concrete inputs: a whitespace-only
name and an over-long message each produce 400 with no upstream
interaction. -/
theorem announce_validation_spec_witness :
    announceHandler { UBID_MAIN := "U1", AT_MAIN := "A1" }
      (some { name := some "   ".toList, message := some "hi".toList, ssml := none })
      12 none none 200 = { status := 400, effects := [] }
    ∧ announceHandler { UBID_MAIN := "U1", AT_MAIN := "A1" }
      (some { name := some "Bob".toList
            , message := some (List.replicate 501 'a'), ssml := none })
      12 none none 200 = { status := 400, effects := [] } := by
  constructor
  · exact (announce_validation_spec { UBID_MAIN := "U1", AT_MAIN := "A1" }
      { name := some "   ".toList, message := some "hi".toList, ssml := none }
      12 none none 200 (by decide) (by decide)).1 (by decide)
  · exact (announce_validation_spec { UBID_MAIN := "U1", AT_MAIN := "A1" }
      { name := some "Bob".toList, message := some (List.replicate 501 'a')
      , ssml := none }
      12 none none 200 (by decide) (by decide)).2.2.2.1 (by decide)

end AlexaMCP
